import Mathlib

/-!
# Smart Energy ROI v2 — verification of the financial core

Shallow embedding of the financial-projection core of the
`smart-energy-roi-v2-deploy` repository.  The repository contains three
variants of the same application:

* `src/SmartEnergyROIApp.jsx` (called **V1** below): `computeScenarioModel`,
  the sin-based cyclical tariff projector, a guarded first-year return, and
  an IRR bisection over `[-0.95, 3.0]` with tolerance `1e-7` and 90
  iterations;
* the first half of `src/unnamed/part_001` (**V2**): `computeScenario` with
  the deterministic `stableNoise01` jitter, an exports toggle, and an IRR
  bisection over `[-0.99, 5.0]` with tolerance `1e-4` and 140 iterations;
* the second half of `src/unnamed/part_001` (**V3**): like V2 but the
  volatility jitter draws `Math.random()` each year, there is no exports
  toggle, and the IRR loop runs 120 iterations.

Conventions of the embedding:

* JavaScript numbers are modelled by exact rationals `ℚ`; floating-point
  rounding and overflow are not modelled.  Literals such as `1e-7` denote
  the exact rational `1/10^7`.
* A JavaScript value fed through the coercion helper `n` (a finite number,
  `NaN`, or a string that `Number` parses or fails to parse) is modelled by
  `Option ℚ`: `some q` for a value that coerces to the finite number `q`,
  `none` for anything that coerces to a non-finite number.
* `Number.isFinite` guards in the source are vacuous on exact rationals and
  are dropped where every value reaching them is finite by construction.
* `Math.sin` and `Math.PI` are transcendental; they enter only the cyclical
  tariff multiplier.  They are passed as explicit parameters (`jsSin`,
  `jsPI`) and every theorem is proved for all values of these parameters.
* `Math.random()` (V3) is modelled by an explicit stream `rand : ℕ → ℚ`
  giving the draw consumed in year `y`; `stableNoise01` applied to the
  year-`y` seed string (V2) is likewise abstracted as a stream
  `noise : ℕ → ℚ`, since its argument is built by JavaScript
  number-to-string formatting.
-/

/-! ## Shared numeric helpers -/

/-- `clamp(v, min, max) = Math.min(max, Math.max(min, v))` (both variants). -/
def clamp (v lo hi : ℚ) : ℚ := min hi (max lo v)

/-- `Math.round`: rounds half toward positive infinity, like JavaScript. -/
def jsRound (x : ℚ) : ℤ := ⌊x + 1/2⌋

/-- V1 helper `n(x, fallback)`: coerce a JS value to a number, replacing a
non-finite result by the fallback.  The JS value is modelled post-coercion
as `Option ℚ` (see the header). -/
def n (x : Option ℚ) (fallback : ℚ) : ℚ :=
  match x with
  | some v => v
  | none => fallback

/-- V1 helper `int(x, fallback) = Math.round(n(x, fallback))`; the rounded
value is always finite, so the second `isFinite` guard is vacuous. -/
def int (x : Option ℚ) (fallback : ℚ) : ℤ := jsRound (n x fallback)

/-! ## Investment-metric solver (shared `npv` / `paybackYear`, three `irr`s) -/

/-- Indexed accumulation underlying `npv`: the fold
`cashflows.reduce((acc, cf, t) => acc + cf / Math.pow(1 + rate, t), 0)`
with `t` starting at the given index. -/
def npvAux (rate : ℚ) : List ℚ → ℕ → ℚ
  | [], _ => 0
  | c :: cs, t => c / (1 + rate) ^ t + npvAux rate cs (t + 1)

/-- `npv(rate, cashflows)` — identical in all three variants. -/
def npv (rate : ℚ) (cashflows : List ℚ) : ℚ := npvAux rate cashflows 0

/-- The V1 bisection loop (`for (i = 0; i < 90; i++) …`).  `fLow0` is the
NPV at the *initial* lower bound: the source computes `fLow` once before
the loop and never updates it inside. -/
def irrGo (cashflows : List ℚ) (fLow0 : ℚ) : ℕ → ℚ → ℚ → ℚ
  | 0, low, high => (low + high) / 2
  | fuel + 1, low, high =>
    let mid := (low + high) / 2
    let fMid := npv mid cashflows
    if |fMid| < 1 / 10 ^ 7 then mid
    else if fLow0 * fMid ≤ 0 then irrGo cashflows fLow0 fuel low mid
    else irrGo cashflows fLow0 fuel mid high

/-- V1 `irr(cashflows)`: bracket `[-0.95, 3.0]`, tolerance `1e-7`, 90
iterations, returning `null` when the endpoint NPVs have the same strict
sign.  The `Number.isFinite` checks are vacuous over `ℚ`: every midpoint
satisfies `1 + mid > 0`, so no division by zero occurs. -/
def irr (cashflows : List ℚ) : Option ℚ :=
  let low : ℚ := -0.95
  let high : ℚ := 3.0
  let fLow := npv low cashflows
  let fHigh := npv high cashflows
  if fLow * fHigh > 0 then none
  else some (irrGo cashflows fLow 90 low high)

/-- The V2/V3 bisection loop: tolerance `1e-4`, update rule
`if (v > 0) low = mid; else high = mid`. -/
def irrGoB (cashflows : List ℚ) : ℕ → ℚ → ℚ → ℚ
  | 0, low, high => (low + high) / 2
  | fuel + 1, low, high =>
    let mid := (low + high) / 2
    let v := npv mid cashflows
    if |v| < 1 / 10 ^ 4 then mid
    else if 0 < v then irrGoB cashflows fuel mid high
    else irrGoB cashflows fuel low mid

/-- V2 `irr(cashflows)`: requires a negative and a positive entry, then
bisects `[-0.99, 5.0]` for 140 iterations. -/
def irrB (cashflows : List ℚ) : Option ℚ :=
  if cashflows.any (fun x => decide (x < 0)) ∧
      cashflows.any (fun x => decide (0 < x)) then
    some (irrGoB cashflows 140 (-0.99) 5.0)
  else none

/-- V3 `irr(cashflows)`: as V2 but 120 iterations. -/
def irrC (cashflows : List ℚ) : Option ℚ :=
  if cashflows.any (fun x => decide (x < 0)) ∧
      cashflows.any (fun x => decide (0 < x)) then
    some (irrGoB cashflows 120 (-0.99) 5.0)
  else none

/-- `paybackYear(cashflows)` — identical in all three variants: first index
whose running cumulative sum is non-negative, else `null`. -/
def paybackYearAux : ℚ → ℕ → List ℚ → Option ℕ
  | _, _, [] => none
  | cum, t, c :: cs =>
    let cum' := cum + c
    if 0 ≤ cum' then some t else paybackYearAux cum' (t + 1) cs

def paybackYear (cashflows : List ℚ) : Option ℕ :=
  paybackYearAux 0 0 cashflows

/-! ## V1: incentive catalog and net-capex resolver -/

/-- One entry of the V1 catalog `INCENTIVOS_CO` (the display name `nombre`
is not used by any computation and is omitted). -/
structure IncentivoCO where
  id : String
  aplicaIVA : Bool
  aplicaArancel : Bool
  aplicaDeduccionRenta : Bool
deriving DecidableEq

def INCENTIVOS_CO : List IncentivoCO :=
  [ { id := "none", aplicaIVA := false, aplicaArancel := false, aplicaDeduccionRenta := false },
    { id := "co_full", aplicaIVA := true, aplicaArancel := true, aplicaDeduccionRenta := true },
    { id := "co_iva", aplicaIVA := true, aplicaArancel := false, aplicaDeduccionRenta := false },
    { id := "co_arancel", aplicaIVA := false, aplicaArancel := true, aplicaDeduccionRenta := false },
    { id := "co_renta", aplicaIVA := false, aplicaArancel := false, aplicaDeduccionRenta := true },
    { id := "co_iva_renta", aplicaIVA := true, aplicaArancel := false, aplicaDeduccionRenta := true } ]

/-- V1 `calcularCapexNeto({capex, ivaRate, arancelRate, aplicaIVA, aplicaArancel})`. -/
def calcularCapexNeto (capex ivaRate arancelRate : Option ℚ)
    (aplicaIVA aplicaArancel : Bool) : ℚ :=
  let neto0 := max 0 (n capex 0)
  let neto1 := if aplicaIVA then neto0 / (1 + clamp (n ivaRate 0.19) 0 1) else neto0
  if aplicaArancel then neto1 / (1 + clamp (n arancelRate 0.05) 0 1) else neto1

/-! ## V1: income-tax-deduction benefit stream -/

/-- The fill loop of `beneficioDeduccionRentaPorAno`: starting from year `y`
with `restante` still deductible and `fuel` remaining slots of the output
array, produce those slots.  `break` in the source leaves the prefilled
zeros in place, modelled by `List.replicate fuel 0`. -/
def benefGo (cuota tope tasa : ℚ) (anos : ℕ) : ℚ → ℕ → ℕ → List ℚ
  | _, _, 0 => []
  | restante, y, fuel + 1 =>
    if anos < y ∨ restante ≤ 0 then List.replicate (fuel + 1) 0
    else
      let ded := min cuota (min restante tope)
      ded * tasa :: benefGo cuota tope tasa anos (restante - ded) (y + 1) fuel

/-- V1 `beneficioDeduccionRentaPorAno({capexNeto, vida, aplica,
anosAplicacion, ingresoGravableAnual, tasaImpuestoRenta})`.  The source's
`clamp(int(vida, 25), 1, 30)` acts on an integer-valued number, modelled
as `min`/`max` over `ℤ` followed by `toNat`; likewise for `anos`. -/
def beneficioDeduccionRentaPorAno (capexNeto vida : Option ℚ) (aplica : Bool)
    (anosAplicacion ingresoGravableAnual tasaImpuestoRenta : Option ℚ) : List ℚ :=
  let vidaN : ℕ := (min 30 (max 1 (int vida 25))).toNat
  if ¬aplica then List.replicate vidaN 0
  else
    let anos : ℕ := (min 15 (max 1 (int anosAplicacion 5))).toNat
    let capex := max 0 (n capexNeto 0)
    let ingreso := max 0 (n ingresoGravableAnual 0)
    let tasa := clamp (n tasaImpuestoRenta 0.35) 0 1
    let totalDeducible := 0.5 * capex
    let cuota := totalDeducible / (anos : ℚ)
    benefGo cuota (0.5 * ingreso) tasa anos totalDeducible 1 vidaN

/-! ## V1: tariff projector -/

/-- V1 `tariffForYear({mode, baseTariff, escTarifa, manualList, volatility,
cycleYears, year})`.  `jsSin` and `jsPI` abstract the transcendental
`Math.sin` and `Math.PI` (see the header); every theorem below is proved
for all values of these parameters.  `Math.pow(x, k)` is used only with a
non-negative integer exponent, modelled by `^ (… ).toNat`. -/
def tariffForYear (jsSin : ℚ → ℚ) (jsPI : ℚ) (mode : String)
    (baseTariff escTarifa : ℚ) (manualList : List ℚ)
    (volatility cycleYears : ℚ) (year : ℤ) : ℚ :=
  if year ≤ 0 then baseTariff
  else if mode = "manual" then
    if year ≤ (manualList.length : ℤ) then manualList.getD (year - 1).toNat 0
    else
      let last := if manualList.length ≠ 0 then manualList.getD (manualList.length - 1) 0
                  else baseTariff
      let extraYears := year - (manualList.length : ℤ)
      last * (1 + escTarifa) ^ extraYears.toNat
  else if mode = "ciclico" then
    let cyc := clamp cycleYears 2 10
    let vol := clamp volatility 0 0.5
    let base := baseTariff * (1 + escTarifa) ^ (year - 1).toNat
    let mult := 1 + vol * jsSin ((2 * jsPI * ((year : ℚ) - 1)) / cyc)
    base * mult
  else baseTariff * (1 + escTarifa) ^ (year - 1).toNat

/-! ## V1: scenario model -/

/-- The V1 scenario record as consumed by `computeScenarioModel`.  Numeric
fields pass through `n`/`int` and are modelled as `Option ℚ` (see the
header).  `tarifaLista` is the result of `parseTariffList` on the raw
textarea text (string splitting/`Number` parsing abstracted to its output:
a list of finite numbers); `tariffMode` is the raw mode string, with
`undefined` collapsed to `""` (both are falsy, so `s.tariffMode || "escalado"`
treats them alike); `incentivoId` is the raw id string. -/
structure Scenario where
  vida : Option ℚ
  potencia : Option ℚ
  psh : Option ℚ
  pr : Option ℚ
  degrad : Option ℚ
  autoconsumo : Option ℚ
  capex : Option ℚ
  om : Option ℚ
  tasaDesc : Option ℚ
  tarifaBase : Option ℚ
  escTarifa : Option ℚ
  tariffMode : String
  tarifaLista : List ℚ
  volatilidad : Option ℚ
  ciclo : Option ℚ
  incentivoId : String
  ivaRate : Option ℚ
  arancelRate : Option ℚ
  ingresoGravableAnual : Option ℚ
  tasaImpuestoRenta : Option ℚ
  anosDeduccionRenta : Option ℚ

/-- One V1 ledger row (`rows.push({year, tarifa, energia, ahorro, om,
incentivoRenta, neto, acumulado})`). -/
structure Row where
  year : ℕ
  tarifa : ℚ
  energia : ℚ
  ahorro : ℚ
  om : ℚ
  incentivoRenta : ℚ
  neto : ℚ
  acumulado : ℚ
deriving DecidableEq

/-- The per-year constants of the V1 ledger loop, resolved once before the
loop in `computeScenarioModel`. -/
structure DerivedParams where
  potencia : ℚ
  psh : ℚ
  pr : ℚ
  degrad : ℚ
  autoconsumo : ℚ
  om : ℚ
  escTarifa : ℚ
  tarifaBase : ℚ
  vol : ℚ
  cyc : ℚ
  tariffMode : String
  list : List ℚ
  beneficios : List ℚ

/-- The body of the V1 ledger loop for a year `y ≥ 1`, producing the row
with running cumulative `acum`.  `beneficiosRenta[y - 1] || 0` reads the
benefit list out of bounds as `0` (and `0 || 0` is still `0`), modelled by
`getD`. -/
def rowFor (jsSin : ℚ → ℚ) (jsPI : ℚ) (p : DerivedParams) (y : ℕ) (acum : ℚ) : Row :=
  let energia := p.potencia * p.psh * 365 * p.pr * (1 - p.degrad) ^ (y - 1)
  let tarifaY := tariffForYear jsSin jsPI p.tariffMode p.tarifaBase p.escTarifa
    p.list p.vol p.cyc (y : ℤ)
  let ahorro := energia * tarifaY * p.autoconsumo
  let omY := p.om * (1 + max 0 p.escTarifa) ^ (y - 1)
  let incRenta := p.beneficios.getD (y - 1) 0
  { year := y
    tarifa := tarifaY
    energia := energia
    ahorro := ahorro
    om := omY
    incentivoRenta := incRenta
    neto := ahorro - omY + incRenta
    acumulado := acum }

/-- The V1 ledger loop for years `y, y+1, …` (`fuel` iterations), carrying
the running cumulative `cum` exactly as the source's `cum += neto`. -/
def ledgerGo (jsSin : ℚ → ℚ) (jsPI : ℚ) (p : DerivedParams) : ℕ → ℕ → ℚ → List Row
  | 0, _, _ => []
  | fuel + 1, y, cum =>
    let nt := (rowFor jsSin jsPI p y 0).neto
    rowFor jsSin jsPI p y (cum + nt) :: ledgerGo jsSin jsPI p fuel (y + 1) (cum + nt)

/-- The V1 result record returned by `computeScenarioModel`. -/
structure Model where
  vida : ℕ
  rows : List Row
  vpn : ℚ
  tir : Option ℚ
  payback : Option ℕ
  roi1 : Option ℚ
  conclusions : List String
  capexNeto : ℚ

/-- V1 `computeScenarioModel(s)`. -/
def computeScenarioModel (jsSin : ℚ → ℚ) (jsPI : ℚ) (s : Scenario) : Model :=
  let vida : ℕ := (min 30 (max 1 (int s.vida 25))).toNat
  let potencia := max 0 (n s.potencia 0)
  let psh := clamp (n s.psh 4.5) 0 8
  let pr := clamp (n s.pr 0.8) 0 1
  let degrad := clamp (n s.degrad 0.006) 0 0.05
  let autoconsumo := clamp (n s.autoconsumo 1) 0 1
  let capexBruto := max 0 (n s.capex 0)
  let om := max 0 (n s.om 0)
  let tasaDesc := clamp (n s.tasaDesc 0.12) 0.000001 0.8
  let tarifaBase := max 0 (n s.tarifaBase 0)
  let escTarifa := clamp (n s.escTarifa 0.04) (-0.2) 0.8
  let tariffMode := if s.tariffMode = "" then "escalado" else s.tariffMode
  let list := s.tarifaLista.map (fun v => max 0 v)
  let vol := clamp (n s.volatilidad 0.1) 0 0.5
  let cyc : ℚ := ((min 10 (max 2 (int s.ciclo 4)) : ℤ) : ℚ)
  let fallbackInc : IncentivoCO :=
    { id := "", aplicaIVA := false, aplicaArancel := false, aplicaDeduccionRenta := false }
  let inc := (INCENTIVOS_CO.find? (fun x => x.id = s.incentivoId)).getD
    (INCENTIVOS_CO.getD 0 fallbackInc)
  let ivaRate := clamp (n s.ivaRate 0.19) 0 1
  let arancelRate := clamp (n s.arancelRate 0.05) 0 1
  let capexNeto := calcularCapexNeto (some capexBruto) (some ivaRate) (some arancelRate)
    inc.aplicaIVA inc.aplicaArancel
  let beneficiosRenta := beneficioDeduccionRentaPorAno (some capexNeto) (some (vida : ℚ))
    inc.aplicaDeduccionRenta s.anosDeduccionRenta s.ingresoGravableAnual s.tasaImpuestoRenta
  let p : DerivedParams :=
    { potencia := potencia
      psh := psh
      pr := pr
      degrad := degrad
      autoconsumo := autoconsumo
      om := om
      escTarifa := escTarifa
      tarifaBase := tarifaBase
      vol := vol
      cyc := cyc
      tariffMode := tariffMode
      list := list
      beneficios := beneficiosRenta }
  let row0 : Row :=
    { year := 0
      tarifa := 0
      energia := 0
      ahorro := 0
      om := 0
      incentivoRenta := 0
      neto := -capexNeto
      acumulado := -capexNeto }
  let rows := row0 :: ledgerGo jsSin jsPI p vida 1 (-capexNeto)
  let cashflows := rows.map (fun r => r.neto)
  let vpn := npv tasaDesc cashflows
  let tir := irr cashflows
  let payback := paybackYear cashflows
  let roi1 := if 0 < capexNeto ∧ 1 < rows.length
    then some ((rows.getD 1 row0).neto / capexNeto) else none
  let conclIncentivos : List String :=
    if inc.id = "none" then ["Incentivos tributarios: ninguno (simulación)."]
    else
      let parts :=
        (if inc.aplicaIVA then ["exclusión de IVA (CAPEX neto menor)"] else []) ++
        (if inc.aplicaArancel then ["exención de arancel (CAPEX neto menor)"] else []) ++
        (if inc.aplicaDeduccionRenta then ["deducción en renta (beneficio anual simulado)"] else [])
      [ "Incentivos tributarios: " ++ String.intercalate " + " parts ++ ".",
        "Nota: simulación simplificada; la elegibilidad real depende de requisitos y soportes." ]
  let conclModo : List String :=
    (if tariffMode = "manual" then ["Precio de energía: variable por lista manual (año a año)."] else []) ++
    (if tariffMode = "ciclico" then ["Precio de energía: variable (cíclico/mercado)."] else []) ++
    (if tariffMode = "escalado" then ["Precio de energía: escalamiento fijo anual."] else [])
  let conclVpn : List String :=
    [if 0 < vpn then "Rentabilidad: VPN positivo (viable)." else "Rentabilidad: VPN negativo (ajusta supuestos)."]
  let conclTir : List String :=
    match tir with
    | some t => [if tasaDesc < t then "La TIR supera la tasa de descuento: atractivo."
                 else "La TIR no supera la tasa de descuento: revisar."]
    | none => ["TIR no calculable (no converge o flujo no cambia de signo)."]
  let conclPayback : List String :=
    match payback with
    | some pb => ["Payback estimado: año " ++ toString pb ++ "."]
    | none => ["No se recupera dentro del horizonte."]
  { vida := vida
    rows := rows
    vpn := vpn
    tir := tir
    payback := payback
    roi1 := roi1
    conclusions := conclIncentivos ++ conclModo ++ conclVpn ++ conclTir ++ conclPayback
    capexNeto := capexNeto }

/-! ## V1: comparison chart -/

/-- One point of the V1 comparison chart (`{year, A, B, C}` with
`Math.round`ed cumulatives). -/
structure ChartPt where
  year : ℕ
  A : ℤ
  B : ℤ
  C : ℤ
deriving DecidableEq

/-- A zero row, used only as the (unreachable) `getD` default when reading
a row of a nonempty ledger. -/
def dRow : Row :=
  { year := 0
    tarifa := 0
    energia := 0
    ahorro := 0
    om := 0
    incentivoRenta := 0
    neto := 0
    acumulado := 0 }

/-- The V1 chart series: `Array.from({length: max(vidas)+1}, (_, y) => …)`
with `mX.rows[y] || mX.rows[mX.rows.length - 1]` (row objects are always
truthy, so `||` is exactly out-of-bounds fallback to the last row). -/
def chart (mA mB mC : Model) : List ChartPt :=
  (List.range (max (max mA.vida mB.vida) mC.vida + 1)).map fun y =>
    let rowA := mA.rows.getD y (mA.rows.getD (mA.rows.length - 1) dRow)
    let rowB := mB.rows.getD y (mB.rows.getD (mB.rows.length - 1) dRow)
    let rowC := mC.rows.getD y (mC.rows.getD (mC.rows.length - 1) dRow)
    { year := y
      A := jsRound rowA.acumulado
      B := jsRound rowB.acumulado
      C := jsRound rowC.acumulado }

/-! ## V2 and V3 (`src/unnamed/part_001`): incentives and scenario model -/

/-- The scenario record of the part_001 variants (all-numeric fields plus
the incentive scheme key; `name` and `colorKey` are display-only and
omitted). -/
structure ScenarioPro where
  kW : ℚ
  lifeYears : ℚ
  tariff : ℚ
  tariffEscalation : ℚ
  tariffVolatility : ℚ
  selfConsumption : ℚ
  capex : ℚ
  omAnnual : ℚ
  discountRate : ℚ
  psh : ℚ
  pr : ℚ
  degAnnual : ℚ
  exportFactor : ℚ
  incentiveScheme : String
  ivaRate : ℚ
  arancelRate : ℚ
  taxRate : ℚ
  deductionYears : ℚ

/-- V2 global toggles (`{includeTaxBenefit, useVolatility, includeExports}`). -/
structure GlobalToggles where
  includeTaxBenefit : Bool
  useVolatility : Bool
  includeExports : Bool

/-- V3 global toggles (no exports toggle). -/
structure GlobalsV3 where
  includeTaxBenefit : Bool
  useVolatility : Bool

/-- `yearlyGenerationKwh({kW, psh, pr, deg, year})` — identical in V2 and V3. -/
def yearlyGenerationKwh (kW psh pr deg : ℚ) (year : ℕ) : ℚ :=
  (kW * psh * 365 * pr) * (1 - deg) ^ (year - 1)

/-- `applyIncentives(capexBruto, opt)` — identical in V2 and V3: VAT removal
divides, duty removal multiplies by `1 - rate`, and only the `co_full`
scheme grants the flat annual tax benefit
`(0.5 * capexNeto / deductionYears) * taxRate`. -/
def applyIncentives (capexBruto : ℚ) (scheme : String)
    (ivaRate arancelRate taxRate deductionYears : ℚ) : ℚ × ℚ :=
  let iva := clamp ivaRate 0 0.3
  let ara := clamp arancelRate 0 0.2
  let c1 := if scheme = "co_iva" ∨ scheme = "co_iva_arancel" ∨ scheme = "co_full"
    then capexBruto / (1 + iva) else capexBruto
  let c2 := if scheme = "co_iva_arancel" ∨ scheme = "co_full"
    then c1 * (1 - ara) else c1
  let tb := if scheme = "co_full" then
      let deductionBase := 0.5 * c2
      let dYears := max 1 (jsRound deductionYears)
      let tRate := clamp taxRate 0 0.5
      deductionBase / (dYears : ℚ) * tRate
    else 0
  (c2, tb)

/-- One V2 annual row. -/
structure AnnualPro where
  year : ℕ
  tariff : ℚ
  generationKwh : ℚ
  selfKwh : ℚ
  expKwh : ℚ
  savingsSelf : ℚ
  revenueExp : ℚ
  savings : ℚ
  om : ℚ
  taxBenefit : ℚ
  net : ℚ
  cum : ℚ
deriving DecidableEq

/-- Per-year constants of the V2/V3 loops. -/
structure ProParams where
  tariff0 : ℚ
  esc : ℚ
  vol : ℚ
  exportFactor : ℚ
  selfFrac : ℚ
  kW : ℚ
  psh : ℚ
  pr : ℚ
  deg : ℚ
  benefitTax : ℚ
  useVol : Bool

/-- The V2 loop body for year `y` with this year's operating cost `omY` and
the already-resolved previous cumulative `cumPrev`
(`(annuals[y-2]?.cum || cashflows[0])`). -/
def proRow (noise : ℕ → ℚ) (p : ProParams) (y : ℕ) (omY cumPrev : ℚ) : AnnualPro :=
  let baseTariff := p.tariff0 * (1 + p.esc) ^ (y - 1)
  let tariffY := if p.useVol then max 0 (baseTariff * (1 + (noise y * 2 - 1) * p.vol))
    else baseTariff
  let gen := yearlyGenerationKwh p.kW p.psh p.pr p.deg y
  let selfKwh := gen * p.selfFrac
  let expKwh := gen * (1 - p.selfFrac)
  let exportPrice := tariffY * p.exportFactor
  let savingsSelf := selfKwh * tariffY
  let revenueExp := expKwh * exportPrice
  let savings := savingsSelf + revenueExp
  { year := y
    tariff := tariffY
    generationKwh := gen
    selfKwh := selfKwh
    expKwh := expKwh
    savingsSelf := savingsSelf
    revenueExp := revenueExp
    savings := savings
    om := omY
    taxBenefit := p.benefitTax
    net := savings - omY + p.benefitTax
    cum := cumPrev + (savings - omY + p.benefitTax) }

/-- The V2 annuals loop.  `cf0` is `cashflows[0]`; the next year's
`cumPrev` is `row.cum || cashflows[0]` — JavaScript `||` treats a
cumulative of exactly `0` as falsy, reproduced by the `if row.cum = 0`
test.  The operating cost is updated `om *= (1 + esc)` after the first
year, modelled by passing `omY * (1 + p.esc)` to the recursive call. -/
def proGo (noise : ℕ → ℚ) (p : ProParams) (cf0 : ℚ) : ℕ → ℕ → ℚ → ℚ → List AnnualPro
  | 0, _, _, _ => []
  | fuel + 1, y, omY, cumPrev =>
    let row := proRow noise p y omY cumPrev
    row :: proGo noise p cf0 fuel (y + 1) (omY * (1 + p.esc))
      (if row.cum = 0 then cf0 else row.cum)

/-- The V2 result record. -/
structure ModelPro where
  years : ℕ
  capexNeto : ℚ
  cashflows : List ℚ
  annuals : List AnnualPro
  NPV : ℚ
  IRR : Option ℚ
  payback : Option ℕ
  roi1 : ℚ
  exportShareY1 : ℚ
deriving DecidableEq

/-- V2 `computeScenario(s, global, seedTag)`.  The `seedTag`-dependent
`stableNoise01` draws are abstracted as the stream `noise` (see the
header).  `roi1 = cashflows[1] / capexNeto` is **unguarded** in this
variant: over `ℚ` a division by zero yields `0`, while in JavaScript it
yields `Infinity`/`NaN` — this is the division-guard bug site for the
first-year-return claim.

This definition covers the source's *non-throwing* domain only: in the
source, `years = Math.max(5, Math.round(s.lifeYears))` feeds
`new Array(years + 1)`, which throws a `RangeError` when `lifeYears` is
non-finite or rounds to `≥ 2^32` — a path a plain-`ℚ` `lifeYears` cannot
reach.  That allocation guard is modelled separately and faithfully by
`proYears` below; every concrete input used in a theorem here has a small
integer `lifeYears`, squarely inside the non-throwing domain. -/
def computeScenarioPro (s : ScenarioPro) (g : GlobalToggles) (noise : ℕ → ℚ) : ModelPro :=
  let years : ℕ := (max 5 (jsRound s.lifeYears)).toNat
  let discount := clamp s.discountRate 0.01 0.6
  let inc := applyIncentives s.capex s.incentiveScheme s.ivaRate s.arancelRate
    s.taxRate s.deductionYears
  let capexNeto := inc.1
  let taxBenefitAnnual := inc.2
  let tariff0 := max 0 s.tariff
  let esc := clamp s.tariffEscalation 0 0.35
  let vol := clamp s.tariffVolatility 0 0.5
  let exportFactor := if g.includeExports then clamp s.exportFactor 0 1 else 0
  let selfFrac := clamp s.selfConsumption 0 1
  let om0 := max 0 s.omAnnual
  let benefitTax := if g.includeTaxBenefit then taxBenefitAnnual else 0
  let p : ProParams :=
    { tariff0 := tariff0
      esc := esc
      vol := vol
      exportFactor := exportFactor
      selfFrac := selfFrac
      kW := s.kW
      psh := s.psh
      pr := s.pr
      deg := s.degAnnual
      benefitTax := benefitTax
      useVol := g.useVolatility }
  let annuals := proGo noise p (-capexNeto) years 1 om0 (-capexNeto)
  let cashflows := -capexNeto :: annuals.map (fun a => a.net)
  let exportShareY1 :=
    match annuals with
    | [] => 0
    | y1 :: _ => if 0 < y1.savings then clamp (y1.revenueExp / y1.savings) 0 1 else 0
  { years := years
    capexNeto := capexNeto
    cashflows := cashflows
    annuals := annuals
    NPV := npv discount cashflows
    IRR := irrB cashflows
    payback := paybackYear cashflows
    roi1 := cashflows.getD 1 0 / capexNeto
    exportShareY1 := exportShareY1 }

/-- The `years` computation of the part_001 variants together with the
`new Array(years + 1)` allocation that consumes it:
`years = Math.max(5, Math.round(s.lifeYears))`, and a JavaScript array
length must be an integer below `2^32`.  `none` on the input side is a
non-finite `lifeYears` (NaN or ±Infinity, per the header convention);
`none` on the output side is the thrown `RangeError` — `Math.round` and
`Math.max` propagate non-finite values, and a non-finite or `≥ 2^32`
length makes the allocation throw.  This is the part of the part_001
entry point that `computeScenarioPro`/`computeScenarioV3` (plain-`ℚ`
fields, total) deliberately do not cover. -/
def proYears (lifeYears : Option ℚ) : Option ℕ :=
  match lifeYears with
  | none => none
  | some lv =>
    let years := max 5 (jsRound lv)
    if years + 1 < 2 ^ 32 then some years.toNat else none

/-- One point of the part_001 comparison chart. -/
structure ProChartPt where
  year : ℕ
  A : ℚ
  B : ℚ
  C : ℚ
deriving DecidableEq

/-- The part_001 `chartData` series (identical in V2 and V3): it iterates
`y = 0 … activeModel.years` — the *active* scenario's horizon, not the
maximum of the three — and sums `cashflows.slice(0, y + 1)`. -/
def chartDataPro (mA mB mC : ModelPro) (activeYears : ℕ) : List ProChartPt :=
  (List.range (activeYears + 1)).map fun y =>
    { year := y
      A := if y = 0 then mA.cashflows.getD 0 0 else (mA.cashflows.take (y + 1)).sum
      B := if y = 0 then mB.cashflows.getD 0 0 else (mB.cashflows.take (y + 1)).sum
      C := if y = 0 then mC.cashflows.getD 0 0 else (mC.cashflows.take (y + 1)).sum }

/-- One V3 annual row (V3 does not record the self/export split). -/
structure AnnualV3 where
  year : ℕ
  tariff : ℚ
  generationKwh : ℚ
  savings : ℚ
  om : ℚ
  taxBenefit : ℚ
  net : ℚ
  cum : ℚ
deriving DecidableEq

/-- The V3 loop body: the jitter draws `Math.random()` (the stream `rand`),
and `Math.max(0, baseTariff * jitter)` is applied in every case. -/
def v3Row (rand : ℕ → ℚ) (p : ProParams) (y : ℕ) (omY cumPrev : ℚ) : AnnualV3 :=
  let baseTariff := p.tariff0 * (1 + p.esc) ^ (y - 1)
  let jitter := if p.useVol then 1 + (rand y * 2 - 1) * p.vol else 1
  let tariffY := max 0 (baseTariff * jitter)
  let gen := yearlyGenerationKwh p.kW p.psh p.pr p.deg y
  let selfKwh := gen * p.selfFrac
  let expKwh := gen * (1 - p.selfFrac)
  let exportPrice := tariffY * p.exportFactor
  let savings := selfKwh * tariffY + expKwh * exportPrice
  { year := y
    tariff := tariffY
    generationKwh := gen
    savings := savings
    om := omY
    taxBenefit := p.benefitTax
    net := savings - omY + p.benefitTax
    cum := cumPrev + (savings - omY + p.benefitTax) }

/-- The V3 annuals loop (same `||`-on-zero cumulative hack as V2). -/
def v3Go (rand : ℕ → ℚ) (p : ProParams) (cf0 : ℚ) : ℕ → ℕ → ℚ → ℚ → List AnnualV3
  | 0, _, _, _ => []
  | fuel + 1, y, omY, cumPrev =>
    let row := v3Row rand p y omY cumPrev
    row :: v3Go rand p cf0 fuel (y + 1) (omY * (1 + p.esc))
      (if row.cum = 0 then cf0 else row.cum)

/-- The V3 result record. -/
structure ModelV3 where
  years : ℕ
  capexNeto : ℚ
  cashflows : List ℚ
  annuals : List AnnualV3
  NPV : ℚ
  IRR : Option ℚ
  payback : Option ℕ
  roi1 : ℚ
deriving DecidableEq

/-- V3 `computeScenario(s, global)`.  Each year's `Math.random()` draw is
the stream value `rand y`; a run of the program corresponds to one choice
of the stream, so determinism of the computation is exactly independence
of the result from `rand`.  The export factor is *not* gated by any toggle
in this variant, and `roi1` is unguarded as in V2.  Like
`computeScenarioPro`, this covers the non-throwing domain of the source's
`new Array(years + 1)` allocation; the `RangeError` path is modelled by
`proYears`. -/
def computeScenarioV3 (s : ScenarioPro) (g : GlobalsV3) (rand : ℕ → ℚ) : ModelV3 :=
  let years : ℕ := (max 5 (jsRound s.lifeYears)).toNat
  let discount := clamp s.discountRate 0.01 0.6
  let inc := applyIncentives s.capex s.incentiveScheme s.ivaRate s.arancelRate
    s.taxRate s.deductionYears
  let capexNeto := inc.1
  let taxBenefitAnnual := inc.2
  let tariff0 := max 0 s.tariff
  let esc := clamp s.tariffEscalation 0 0.35
  let vol := clamp s.tariffVolatility 0 0.5
  let exportFactor := clamp s.exportFactor 0 1
  let selfFrac := clamp s.selfConsumption 0 1
  let om0 := max 0 s.omAnnual
  let benefitTax := if g.includeTaxBenefit then taxBenefitAnnual else 0
  let p : ProParams :=
    { tariff0 := tariff0
      esc := esc
      vol := vol
      exportFactor := exportFactor
      selfFrac := selfFrac
      kW := s.kW
      psh := s.psh
      pr := s.pr
      deg := s.degAnnual
      benefitTax := benefitTax
      useVol := g.useVolatility }
  let annuals := v3Go rand p (-capexNeto) years 1 om0 (-capexNeto)
  let cashflows := -capexNeto :: annuals.map (fun a => a.net)
  { years := years
    capexNeto := capexNeto
    cashflows := cashflows
    annuals := annuals
    NPV := npv discount cashflows
    IRR := irrC cashflows
    payback := paybackYear cashflows
    roi1 := cashflows.getD 1 0 / capexNeto }

/-! ## Claim-side definitions

The deduction-benefit claim describes the V1 stream through a
"remaining undeducted base" recurrence.  The two definitions below follow
the claim's words (not the source) and are compared with the source
embedding `beneficioDeduccionRentaPorAno` in the corresponding theorem. -/

/-- Remaining undeducted base after `y` years, per the claim: it decreases
by the deducted amount `min(evenly-spread share, remaining base, income
cap)` in every year inside the deduction window with positive base, and is
unchanged otherwise. -/
def claimRem (cuota tope : ℚ) (anos : ℕ) (base : ℚ) : ℕ → ℚ
  | 0 => base
  | y + 1 =>
    let r := claimRem cuota tope anos base y
    if y + 1 ≤ anos ∧ 0 < r then r - min cuota (min r tope) else r

/-- The year-`y` deducted amount per the claim (zero once the window has
closed or the base is exhausted, whichever happens first). -/
def claimDed (cuota tope : ℚ) (anos : ℕ) (base : ℚ) (y : ℕ) : ℚ :=
  let r := claimRem cuota tope anos base (y - 1)
  if 1 ≤ y ∧ y ≤ anos ∧ 0 < r then min cuota (min r tope) else 0

/-- The running-cumulative relation between consecutive ledger rows. -/
def cumStep (a b : Row) : Prop := b.acumulado = a.acumulado + b.neto

/-- A zero chart point, used only as an (unreachable) `getD` default. -/
def dPt : ChartPt := { year := 0, A := 0, B := 0, C := 0 }

/-! ## Concrete inputs used by witnesses and counterexamples -/

/-- Concrete stand-ins for the abstract `Math.sin` / `Math.PI` / noise
parameters, used only to instantiate theorems at concrete inputs. -/
def jsSin0 : ℚ → ℚ := fun _ => 0

def jsPI0 : ℚ := 0

def noise0 : ℕ → ℚ := fun _ => 0

def rand0 : ℕ → ℚ := fun _ => 0

def randHalf : ℕ → ℚ := fun _ => 1 / 2

/-- A small V1 scenario: 1 kW, unit tariff, no escalation, no incentives,
2-year lifetime, 100 of capex. -/
def sV1a : Scenario :=
  { vida := some 2
    potencia := some 1
    psh := some 1
    pr := some 1
    degrad := some 0
    autoconsumo := some 1
    capex := some 100
    om := some 0
    tasaDesc := some (1/10)
    tarifaBase := some 1
    escTarifa := some 0
    tariffMode := "escalado"
    tarifaLista := []
    volatilidad := some 0
    ciclo := some 4
    incentivoId := "none"
    ivaRate := some 0.19
    arancelRate := some 0.05
    ingresoGravableAnual := some 0
    tasaImpuestoRenta := some 0.35
    anosDeduccionRenta := some 5 }

/-- As `sV1a` but with a 4-year lifetime. -/
def sV1b : Scenario := { sV1a with vida := some 4 }

/-- As `sV1a` but with a 3-year lifetime. -/
def sV1c : Scenario := { sV1a with vida := some 3 }

/-- A small part_001 scenario: 1 kW, unit tariff, no escalation, no
incentives, 5-year lifetime. -/
def sProBase : ScenarioPro :=
  { kW := 1
    lifeYears := 5
    tariff := 1
    tariffEscalation := 0
    tariffVolatility := 0.08
    selfConsumption := 1
    capex := 100
    omAnnual := 0
    discountRate := 0.12
    psh := 1
    pr := 1
    degAnnual := 0
    exportFactor := 0
    incentiveScheme := "none"
    ivaRate := 0.19
    arancelRate := 0.05
    taxRate := 0.35
    deductionYears := 5 }

/-- As `sProBase` but with a 10-year lifetime (used as the long scenario in
the comparison-series counterexample). -/
def sProLong : ScenarioPro := { sProBase with lifeYears := 10 }

/-- As `sProBase` but with zero capex (the first-year-return failing input). -/
def sProZero : ScenarioPro := { sProBase with capex := 0 }

/-- As `sProBase` but with the full incentive package and a 2-year
deduction window (shorter than the 5-year lifetime, so the window closes
before the horizon ends). -/
def sProFull : ScenarioPro :=
  { sProBase with incentiveScheme := "co_full", deductionYears := 2 }

/-- A zero V2 annual row, used only as an (unreachable) `getD` default. -/
def dAnnualPro : AnnualPro :=
  { year := 0
    tariff := 0
    generationKwh := 0
    selfKwh := 0
    expKwh := 0
    savingsSelf := 0
    revenueExp := 0
    savings := 0
    om := 0
    taxBenefit := 0
    net := 0
    cum := 0 }

set_option maxRecDepth 40000

unseal Rat.add Rat.mul Rat.inv Rat.sub Rat.ofScientific

/-! ## Lemmas about the bisection loops -/

theorem irrGo_zero_eq (cf : List ℚ) (f0 low high : ℚ) :
    irrGo cf f0 0 low high = (low + high) / 2 := rfl

theorem irrGo_succ_eq (cf : List ℚ) (f0 : ℚ) (fuel : ℕ) (low high : ℚ) :
    irrGo cf f0 (fuel + 1) low high =
      if |npv ((low + high) / 2) cf| < 1 / 10 ^ 7 then (low + high) / 2
      else if f0 * npv ((low + high) / 2) cf ≤ 0 then
        irrGo cf f0 fuel low ((low + high) / 2)
      else irrGo cf f0 fuel ((low + high) / 2) high := rfl

theorem irrGoB_zero_eq (cf : List ℚ) (low high : ℚ) :
    irrGoB cf 0 low high = (low + high) / 2 := rfl

theorem irrGoB_succ_eq (cf : List ℚ) (fuel : ℕ) (low high : ℚ) :
    irrGoB cf (fuel + 1) low high =
      if |npv ((low + high) / 2) cf| < 1 / 10 ^ 4 then (low + high) / 2
      else if 0 < npv ((low + high) / 2) cf then irrGoB cf fuel ((low + high) / 2) high
      else irrGoB cf fuel low ((low + high) / 2) := rfl

/-- Every value the V1 loop can return lies strictly inside the current
bracket. -/
theorem irrGo_bounds (cf : List ℚ) (f0 : ℚ) :
    ∀ (fuel : ℕ) (low high : ℚ), low < high →
      low < irrGo cf f0 fuel low high ∧ irrGo cf f0 fuel low high < high := by
  intro fuel
  induction fuel with
  | zero =>
    intro low high h
    rw [irrGo_zero_eq]
    constructor <;> linarith
  | succ f ih =>
    intro low high h
    rw [irrGo_succ_eq]
    have hm1 : low < (low + high) / 2 := by linarith
    have hm2 : (low + high) / 2 < high := by linarith
    split
    · exact ⟨hm1, hm2⟩
    · split
      · have h2 := ih low ((low + high) / 2) hm1
        exact ⟨h2.1, lt_trans h2.2 hm2⟩
      · have h2 := ih ((low + high) / 2) high hm2
        exact ⟨lt_trans hm1 h2.1, h2.2⟩

/-- Every value the V2/V3 loop can return lies strictly inside the current
bracket. -/
theorem irrGoB_bounds (cf : List ℚ) :
    ∀ (fuel : ℕ) (low high : ℚ), low < high →
      low < irrGoB cf fuel low high ∧ irrGoB cf fuel low high < high := by
  intro fuel
  induction fuel with
  | zero =>
    intro low high h
    rw [irrGoB_zero_eq]
    constructor <;> linarith
  | succ f ih =>
    intro low high h
    rw [irrGoB_succ_eq]
    have hm1 : low < (low + high) / 2 := by linarith
    have hm2 : (low + high) / 2 < high := by linarith
    split
    · exact ⟨hm1, hm2⟩
    · split
      · have h2 := ih ((low + high) / 2) high hm2
        exact ⟨lt_trans hm1 h2.1, h2.2⟩
      · have h2 := ih low ((low + high) / 2) hm1
        exact ⟨h2.1, lt_trans h2.2 hm2⟩

/-- The V1 loop either converges (NPV within tolerance) or returns a point
of a final sub-bracket whose width has been halved `fuel` times. -/
theorem irrGo_width (cf : List ℚ) (f0 : ℚ) :
    ∀ (fuel : ℕ) (low high : ℚ), low ≤ high →
      |npv (irrGo cf f0 fuel low high) cf| < 1 / 10 ^ 7 ∨
      ∃ l h, low ≤ l ∧ h ≤ high ∧ l ≤ irrGo cf f0 fuel low high ∧
        irrGo cf f0 fuel low high ≤ h ∧ h - l ≤ (high - low) / 2 ^ fuel := by
  intro fuel
  induction fuel with
  | zero =>
    intro low high hlh
    rw [irrGo_zero_eq]
    right
    refine ⟨low, high, le_refl _, le_refl _, by linarith, by linarith, ?_⟩
    simp
  | succ f ih =>
    intro low high hlh
    rw [irrGo_succ_eq]
    have hm1 : low ≤ (low + high) / 2 := by linarith
    have hm2 : (low + high) / 2 ≤ high := by linarith
    split
    · left; assumption
    · split
      · rcases ih low ((low + high) / 2) hm1 with hconv | ⟨l, h, h1, h2, h3, h4, h5⟩
        · left; exact hconv
        · right
          refine ⟨l, h, h1, le_trans h2 hm2, h3, h4, ?_⟩
          have : ((low + high) / 2 - low) / 2 ^ f = (high - low) / 2 ^ (f + 1) := by
            rw [pow_succ]
            field_simp
            ring
          linarith [this ▸ h5]
      · rcases ih ((low + high) / 2) high hm2 with hconv | ⟨l, h, h1, h2, h3, h4, h5⟩
        · left; exact hconv
        · right
          refine ⟨l, h, le_trans hm1 h1, h2, h3, h4, ?_⟩
          have : (high - (low + high) / 2) / 2 ^ f = (high - low) / 2 ^ (f + 1) := by
            rw [pow_succ]
            field_simp
            ring
          linarith [this ▸ h5]

/-- The V2/V3 loop either converges (NPV within its `1e-4` tolerance) or
returns a point of a final sub-bracket whose width has been halved `fuel`
times. -/
theorem irrGoB_width (cf : List ℚ) :
    ∀ (fuel : ℕ) (low high : ℚ), low ≤ high →
      |npv (irrGoB cf fuel low high) cf| < 1 / 10 ^ 4 ∨
      ∃ l h, low ≤ l ∧ h ≤ high ∧ l ≤ irrGoB cf fuel low high ∧
        irrGoB cf fuel low high ≤ h ∧ h - l ≤ (high - low) / 2 ^ fuel := by
  intro fuel
  induction fuel with
  | zero =>
    intro low high hlh
    rw [irrGoB_zero_eq]
    right
    refine ⟨low, high, le_refl _, le_refl _, by linarith, by linarith, ?_⟩
    simp
  | succ f ih =>
    intro low high hlh
    rw [irrGoB_succ_eq]
    have hm1 : low ≤ (low + high) / 2 := by linarith
    have hm2 : (low + high) / 2 ≤ high := by linarith
    split
    · left; assumption
    · split
      · rcases ih ((low + high) / 2) high hm2 with hconv | ⟨l, h, h1, h2, h3, h4, h5⟩
        · left; exact hconv
        · right
          refine ⟨l, h, le_trans hm1 h1, h2, h3, h4, ?_⟩
          have : (high - (low + high) / 2) / 2 ^ f = (high - low) / 2 ^ (f + 1) := by
            rw [pow_succ]
            field_simp
            ring
          linarith [this ▸ h5]
      · rcases ih low ((low + high) / 2) hm1 with hconv | ⟨l, h, h1, h2, h3, h4, h5⟩
        · left; exact hconv
        · right
          refine ⟨l, h, h1, le_trans h2 hm2, h3, h4, ?_⟩
          have : ((low + high) / 2 - low) / 2 ^ f = (high - low) / 2 ^ (f + 1) := by
            rw [pow_succ]
            field_simp
            ring
          linarith [this ▸ h5]

/-! ## Sign lemmas for `npv` -/

theorem npvAux_nonneg {rate : ℚ} (hrate : 0 < 1 + rate) :
    ∀ (cfs : List ℚ) (t : ℕ), (∀ x ∈ cfs, 0 ≤ x) → 0 ≤ npvAux rate cfs t := by
  intro cfs
  induction cfs with
  | nil => intro t _; simp [npvAux]
  | cons c cs ih =>
    intro t hall
    have h1 : 0 ≤ c / (1 + rate) ^ t :=
      div_nonneg (hall c (by simp)) (le_of_lt (pow_pos hrate t))
    have h2 : 0 ≤ npvAux rate cs (t + 1) :=
      ih (t + 1) (fun x hx => hall x (by simp [hx]))
    show 0 ≤ c / (1 + rate) ^ t + npvAux rate cs (t + 1)
    linarith

theorem npvAux_pos {rate : ℚ} (hrate : 0 < 1 + rate) :
    ∀ (cfs : List ℚ) (t : ℕ), (∀ x ∈ cfs, 0 ≤ x) → (∃ x ∈ cfs, 0 < x) →
      0 < npvAux rate cfs t := by
  intro cfs
  induction cfs with
  | nil => intro t _ hex; simp at hex
  | cons c cs ih =>
    intro t hall hex
    have h2 : 0 ≤ npvAux rate cs (t + 1) :=
      npvAux_nonneg hrate cs (t + 1) (fun x hx => hall x (by simp [hx]))
    have h1 : 0 ≤ c / (1 + rate) ^ t :=
      div_nonneg (hall c (by simp)) (le_of_lt (pow_pos hrate t))
    rcases hex with ⟨x, hx, hxpos⟩
    rcases List.mem_cons.mp hx with hh | hh
    · rw [hh] at hxpos
      have : 0 < c / (1 + rate) ^ t := div_pos hxpos (pow_pos hrate t)
      show 0 < c / (1 + rate) ^ t + npvAux rate cs (t + 1)
      linarith
    · have h3 := ih (t + 1) (fun y hy => hall y (by simp [hy])) ⟨x, hh, hxpos⟩
      show 0 < c / (1 + rate) ^ t + npvAux rate cs (t + 1)
      linarith

theorem npvAux_map_neg (rate : ℚ) :
    ∀ (cfs : List ℚ) (t : ℕ),
      npvAux rate (cfs.map (fun x => -x)) t = -npvAux rate cfs t := by
  intro cfs
  induction cfs with
  | nil => intro t; simp [npvAux]
  | cons c cs ih =>
    intro t
    show -c / (1 + rate) ^ t + npvAux rate (cs.map (fun x => -x)) (t + 1) = _
    rw [ih (t + 1)]
    show _ = -(c / (1 + rate) ^ t + npvAux rate cs (t + 1))
    ring

theorem npvAux_neg {rate : ℚ} (hrate : 0 < 1 + rate)
    (cfs : List ℚ) (t : ℕ) (hall : ∀ x ∈ cfs, x ≤ 0) (hex : ∃ x ∈ cfs, x < 0) :
    npvAux rate cfs t < 0 := by
  have h := npvAux_pos hrate (cfs.map (fun x => -x)) t
    (by
      intro x hx
      rcases List.mem_map.mp hx with ⟨y, hy, rfl⟩
      have := hall y hy
      linarith)
    (by
      rcases hex with ⟨x, hx, hxneg⟩
      exact ⟨-x, List.mem_map.mpr ⟨x, hx, rfl⟩, by linarith⟩)
  rw [npvAux_map_neg] at h
  linarith

/-! ## Claims about the IRR solver (C2, C3, C10) -/

/-- C3 (counterexample): the all-zero cash-flow vector has all entries of
the same (weak) sign in both directions — it lacks a negative and a
positive entry — yet the V1 solver does not return `null` on it: the
endpoint product `0 * 0 > 0` fails, the first midpoint `1.025` has
`NPV = 0` within tolerance, and `1.025` is returned. -/
theorem irr_allzero_counterexample :
    (∀ x ∈ ([0] : List ℚ), 0 ≤ x) ∧ (∀ x ∈ ([0] : List ℚ), x ≤ 0) ∧
      irr [0] = some (41 / 40) := by
  refine ⟨by decide, by decide, by decide⟩

/-- C3 (amended): for every cash-flow vector whose entries all share the
same sign *and which has at least one nonzero entry*, the V1 solver
returns `null`; the part_001 solvers return `null` for every same-sign
vector, the all-zero vector included.  (On the all-zero vector the V1
solver instead returns `1.025`, see the counterexample.)  No solver can
raise: the embeddings are total functions. -/
theorem irr_same_sign_none (cf : List ℚ)
    (hsign : (∀ x ∈ cf, 0 ≤ x) ∨ (∀ x ∈ cf, x ≤ 0)) :
    ((∃ x ∈ cf, x ≠ 0) → irr cf = none) ∧ irrB cf = none ∧ irrC cf = none := by
  have hnotB : ¬(cf.any (fun x => decide (x < 0)) ∧ cf.any (fun x => decide (0 < x))) := by
    rintro ⟨h1, h2⟩
    rcases hsign with hpos | hneg
    · rcases List.any_eq_true.mp h1 with ⟨x, hx, hdec⟩
      have := of_decide_eq_true hdec
      have := hpos x hx
      linarith
    · rcases List.any_eq_true.mp h2 with ⟨x, hx, hdec⟩
      have := of_decide_eq_true hdec
      have := hneg x hx
      linarith
  refine ⟨?_, ?_, ?_⟩
  · intro hex
    have h005 : (0:ℚ) < 1 + (-0.95) := by norm_num
    have h4 : (0:ℚ) < 1 + 3.0 := by norm_num
    simp only [irr]
    rcases hsign with hpos | hneg
    · rcases hex with ⟨x, hx, hxne⟩
      have hxpos : 0 < x := lt_of_le_of_ne (hpos x hx) (Ne.symm hxne)
      have hl : 0 < npv (-0.95) cf := npvAux_pos h005 cf 0 hpos ⟨x, hx, hxpos⟩
      have hh : 0 < npv 3.0 cf := npvAux_pos h4 cf 0 hpos ⟨x, hx, hxpos⟩
      rw [if_pos (mul_pos hl hh)]
    · rcases hex with ⟨x, hx, hxne⟩
      have hxneg : x < 0 := lt_of_le_of_ne (hneg x hx) hxne
      have hl : npv (-0.95) cf < 0 := npvAux_neg h005 cf 0 hneg ⟨x, hx, hxneg⟩
      have hh : npv 3.0 cf < 0 := npvAux_neg h4 cf 0 hneg ⟨x, hx, hxneg⟩
      rw [if_pos (mul_pos_of_neg_of_neg hl hh)]
  · unfold irrB
    rw [if_neg hnotB]
  · unfold irrC
    rw [if_neg hnotB]

/-- C3 (witness): both hypotheses of the amended statement discharged at
the concrete all-positive vector `[1, 1]`. -/
theorem irr_same_sign_none_witness :
    irr [(1:ℚ), 1] = none ∧ irrB [(1:ℚ), 1] = none ∧ irrC [(1:ℚ), 1] = none := by
  have h := irr_same_sign_none [(1:ℚ), 1] (Or.inl (by decide))
  exact ⟨h.1 ⟨1, by decide, by decide⟩, h.2.1, h.2.2⟩

/-- C2 (counterexample): on the cash-flow vector `[-10^30, 2·10^30]` the
V1 solver never meets its `1e-7` tolerance (the NPV scale is `10^30`), so
after 90 iterations it returns the final bracket's midpoint — a non-null
rate whose NPV is far outside the tolerance. -/
theorem irr_tolerance_counterexample :
    (irr [-(10:ℚ) ^ 30, 2 * 10 ^ 30]).isSome = true ∧
      1 / 10 ^ 7 ≤ |npv ((irr [-(10:ℚ) ^ 30, 2 * 10 ^ 30]).getD 0) [-(10:ℚ) ^ 30, 2 * 10 ^ 30]| := by
  refine ⟨by decide, by decide⟩

/-- C2 (amended): whenever any of the three IRR solvers returns a
non-null rate `r`, either `|NPV(r)|` is below that solver's tolerance
(`1e-7` for V1, `1e-4` for the part_001 variants — the convergence test
fired), or `r` is the best-effort midpoint of a final bracket inside the
solver's initial interval whose width is the interval halved once per
iteration (`3.95/2^90`, `5.99/2^140`, `5.99/2^120` respectively) — in
which case no tolerance bound on `NPV(r)` is guaranteed. -/
theorem irr_tolerance_or_final_bracket (cf : List ℚ) (r : ℚ) :
    (irr cf = some r → |npv r cf| < 1 / 10 ^ 7 ∨
      ∃ l h, -0.95 ≤ l ∧ h ≤ 3 ∧ l ≤ r ∧ r ≤ h ∧ h - l ≤ 3.95 / 2 ^ 90) ∧
    (irrB cf = some r → |npv r cf| < 1 / 10 ^ 4 ∨
      ∃ l h, -0.99 ≤ l ∧ h ≤ 5 ∧ l ≤ r ∧ r ≤ h ∧ h - l ≤ 5.99 / 2 ^ 140) ∧
    (irrC cf = some r → |npv r cf| < 1 / 10 ^ 4 ∨
      ∃ l h, -0.99 ≤ l ∧ h ≤ 5 ∧ l ≤ r ∧ r ≤ h ∧ h - l ≤ 5.99 / 2 ^ 120) := by
  refine ⟨?_, ?_, ?_⟩
  · intro hr
    simp only [irr] at hr
    by_cases hc : npv (-0.95) cf * npv 3.0 cf > 0
    · rw [if_pos hc] at hr
      exact absurd hr (by simp)
    · rw [if_neg hc] at hr
      have hr2 := Option.some.inj hr
      subst hr2
      have hw := irrGo_width cf (npv (-0.95) cf) 90 (-0.95) 3.0 (by norm_num)
      rcases hw with hconv | ⟨l, h, h1, h2, h3, h4, h5⟩
      · left; exact hconv
      · right
        refine ⟨l, h, h1, ?_, h3, h4, ?_⟩
        · have : (3.0 : ℚ) = 3 := by norm_num
          linarith [this ▸ h2]
        · have : (3.0 - (-0.95) : ℚ) = 3.95 := by norm_num
          linarith [this ▸ h5]
  · intro hr
    unfold irrB at hr
    by_cases hc : cf.any (fun x => decide (x < 0)) ∧ cf.any (fun x => decide (0 < x))
    · rw [if_pos hc] at hr
      have hr2 := Option.some.inj hr
      subst hr2
      have hw := irrGoB_width cf 140 (-0.99) 5.0 (by norm_num)
      rcases hw with hconv | ⟨l, h, h1, h2, h3, h4, h5⟩
      · left; exact hconv
      · right
        refine ⟨l, h, h1, ?_, h3, h4, ?_⟩
        · have : (5.0 : ℚ) = 5 := by norm_num
          linarith [this ▸ h2]
        · have : (5.0 - (-0.99) : ℚ) = 5.99 := by norm_num
          linarith [this ▸ h5]
    · rw [if_neg hc] at hr
      exact absurd hr (by simp)
  · intro hr
    unfold irrC at hr
    by_cases hc : cf.any (fun x => decide (x < 0)) ∧ cf.any (fun x => decide (0 < x))
    · rw [if_pos hc] at hr
      have hr2 := Option.some.inj hr
      subst hr2
      have hw := irrGoB_width cf 120 (-0.99) 5.0 (by norm_num)
      rcases hw with hconv | ⟨l, h, h1, h2, h3, h4, h5⟩
      · left; exact hconv
      · right
        refine ⟨l, h, h1, ?_, h3, h4, ?_⟩
        · have : (5.0 : ℚ) = 5 := by norm_num
          linarith [this ▸ h2]
        · have : (5.0 - (-0.99) : ℚ) = 5.99 := by norm_num
          linarith [this ▸ h5]
    · rw [if_neg hc] at hr
      exact absurd hr (by simp)

/-- C2 (witness): the amended theorem applied at concrete inputs — the V1
solver on `[0]` (returns `1.025`) and the part_001 solvers on `[-1, 2]`
(both return `1638341/1638400`), each hypothesis discharged by
computation. -/
theorem irr_tolerance_or_final_bracket_witness :
    (|npv (41/40) [0]| < 1 / 10 ^ 7 ∨
      ∃ l h, -0.95 ≤ l ∧ h ≤ 3 ∧ l ≤ (41/40 : ℚ) ∧ (41/40 : ℚ) ≤ h ∧
        h - l ≤ 3.95 / 2 ^ 90) ∧
    (|npv (1638341/1638400) [-1, 2]| < 1 / 10 ^ 4 ∨
      ∃ l h, -0.99 ≤ l ∧ h ≤ 5 ∧ l ≤ (1638341/1638400 : ℚ) ∧ (1638341/1638400 : ℚ) ≤ h ∧
        h - l ≤ 5.99 / 2 ^ 140) ∧
    (|npv (1638341/1638400) [-1, 2]| < 1 / 10 ^ 4 ∨
      ∃ l h, -0.99 ≤ l ∧ h ≤ 5 ∧ l ≤ (1638341/1638400 : ℚ) ∧ (1638341/1638400 : ℚ) ≤ h ∧
        h - l ≤ 5.99 / 2 ^ 120) :=
  ⟨(irr_tolerance_or_final_bracket [0] (41/40)).1 (by decide),
   (irr_tolerance_or_final_bracket [-1, 2] (1638341/1638400)).2.1 (by decide),
   (irr_tolerance_or_final_bracket [-1, 2] (1638341/1638400)).2.2 (by decide)⟩

/-- C10: whenever any of the three IRR solvers returns a non-null rate,
that rate lies strictly inside the solver's initial search bracket —
`(-0.95, 3)` for the V1 solver, `(-0.99, 5)` for the part_001 solvers —
so no reported IRR can reach the bracket's bounds, whatever the cash
flows. -/
theorem irr_within_initial_bracket (cf : List ℚ) (r : ℚ) :
    (irr cf = some r → -0.95 < r ∧ r < 3) ∧
    (irrB cf = some r → -0.99 < r ∧ r < 5) ∧
    (irrC cf = some r → -0.99 < r ∧ r < 5) := by
  refine ⟨?_, ?_, ?_⟩
  · intro hr
    simp only [irr] at hr
    by_cases hc : npv (-0.95) cf * npv 3.0 cf > 0
    · rw [if_pos hc] at hr; exact absurd hr (by simp)
    · rw [if_neg hc] at hr
      have hr2 := Option.some.inj hr
      subst hr2
      have hb := irrGo_bounds cf (npv (-0.95) cf) 90 (-0.95) 3.0 (by norm_num)
      have h3 : (3.0 : ℚ) = 3 := by norm_num
      exact ⟨hb.1, h3 ▸ hb.2⟩
  · intro hr
    unfold irrB at hr
    by_cases hc : cf.any (fun x => decide (x < 0)) ∧ cf.any (fun x => decide (0 < x))
    · rw [if_pos hc] at hr
      have hr2 := Option.some.inj hr
      subst hr2
      have hb := irrGoB_bounds cf 140 (-0.99) 5.0 (by norm_num)
      have h5 : (5.0 : ℚ) = 5 := by norm_num
      exact ⟨hb.1, h5 ▸ hb.2⟩
    · rw [if_neg hc] at hr
      exact absurd hr (by simp)
  · intro hr
    unfold irrC at hr
    by_cases hc : cf.any (fun x => decide (x < 0)) ∧ cf.any (fun x => decide (0 < x))
    · rw [if_pos hc] at hr
      have hr2 := Option.some.inj hr
      subst hr2
      have hb := irrGoB_bounds cf 120 (-0.99) 5.0 (by norm_num)
      have h5 : (5.0 : ℚ) = 5 := by norm_num
      exact ⟨hb.1, h5 ▸ hb.2⟩
    · rw [if_neg hc] at hr
      exact absurd hr (by simp)

/-- C10 (witness): the bracket bounds at concrete inputs — the V1 solver on
`[0]` (returns `1.025`) and the part_001 solvers on `[-1, 2]` (both
converge to `1638341/1638400 ≈ 0.99996`). -/
theorem irr_within_initial_bracket_witness :
    ((-0.95 : ℚ) < 41/40 ∧ (41/40 : ℚ) < 3) ∧
    ((-0.99 : ℚ) < 1638341/1638400 ∧ (1638341/1638400 : ℚ) < 5) ∧
    ((-0.99 : ℚ) < 1638341/1638400 ∧ (1638341/1638400 : ℚ) < 5) :=
  ⟨(irr_within_initial_bracket [0] (41/40)).1 (by decide),
   (irr_within_initial_bracket [-1, 2] (1638341/1638400)).2.1 (by decide),
   (irr_within_initial_bracket [-1, 2] (1638341/1638400)).2.2 (by decide)⟩

/-! ## Lemmas about the V1 ledger -/

theorem ledgerGo_zero_eq (jsSin : ℚ → ℚ) (jsPI : ℚ) (p : DerivedParams) (y : ℕ) (cum : ℚ) :
    ledgerGo jsSin jsPI p 0 y cum = [] := rfl

theorem ledgerGo_succ_eq (jsSin : ℚ → ℚ) (jsPI : ℚ) (p : DerivedParams)
    (fuel y : ℕ) (cum : ℚ) :
    ledgerGo jsSin jsPI p (fuel + 1) y cum =
      rowFor jsSin jsPI p y (cum + (rowFor jsSin jsPI p y 0).neto) ::
        ledgerGo jsSin jsPI p fuel (y + 1) (cum + (rowFor jsSin jsPI p y 0).neto) := rfl

theorem rowFor_acumulado (jsSin : ℚ → ℚ) (jsPI : ℚ) (p : DerivedParams) (y : ℕ) (a : ℚ) :
    (rowFor jsSin jsPI p y a).acumulado = a := rfl

theorem rowFor_neto_const (jsSin : ℚ → ℚ) (jsPI : ℚ) (p : DerivedParams) (y : ℕ) (a : ℚ) :
    (rowFor jsSin jsPI p y a).neto = (rowFor jsSin jsPI p y 0).neto := rfl

theorem ledgerGo_length (jsSin : ℚ → ℚ) (jsPI : ℚ) (p : DerivedParams) :
    ∀ (fuel y : ℕ) (cum : ℚ), (ledgerGo jsSin jsPI p fuel y cum).length = fuel := by
  intro fuel
  induction fuel with
  | zero => intro y cum; rfl
  | succ f ih =>
    intro y cum
    rw [ledgerGo_succ_eq]
    simp [ih]

theorem ledgerGo_head? (jsSin : ℚ → ℚ) (jsPI : ℚ) (p : DerivedParams)
    (fuel y : ℕ) (cum : ℚ) (h : 0 < fuel) :
    (ledgerGo jsSin jsPI p fuel y cum).head? =
      some (rowFor jsSin jsPI p y (cum + (rowFor jsSin jsPI p y 0).neto)) := by
  cases fuel with
  | zero => omega
  | succ f => rfl

theorem ledgerGo_chain (jsSin : ℚ → ℚ) (jsPI : ℚ) (p : DerivedParams) :
    ∀ (fuel y : ℕ) (cum : ℚ), List.Chain' cumStep (ledgerGo jsSin jsPI p fuel y cum) := by
  intro fuel
  induction fuel with
  | zero => intro y cum; rw [ledgerGo_zero_eq]; exact List.chain'_nil
  | succ f ih =>
    intro y cum
    rw [ledgerGo_succ_eq, List.chain'_cons']
    refine ⟨?_, ih (y + 1) _⟩
    intro b hb
    cases f with
    | zero => simp [ledgerGo_zero_eq] at hb
    | succ f' =>
      rw [ledgerGo_head? jsSin jsPI p (f' + 1) (y + 1) _ (Nat.succ_pos f')] at hb
      have hb2 : rowFor jsSin jsPI p (y + 1)
          ((cum + (rowFor jsSin jsPI p y 0).neto) +
            (rowFor jsSin jsPI p (y + 1) 0).neto) = b := by
        simpa using hb
      subst hb2
      show cumStep _ _
      unfold cumStep
      rw [rowFor_acumulado, rowFor_acumulado,
        rowFor_neto_const jsSin jsPI p (y + 1)
          (cum + (rowFor jsSin jsPI p y 0).neto + (rowFor jsSin jsPI p (y + 1) 0).neto)]

/-- The whole V1 row list (initial row included) satisfies the
running-cumulative relation. -/
theorem rows_chain (jsSin : ℚ → ℚ) (jsPI : ℚ) (p : DerivedParams) (vida : ℕ) (cap : ℚ)
    (row0 : Row) (h0 : row0.acumulado = -cap) :
    List.Chain' cumStep (row0 :: ledgerGo jsSin jsPI p vida 1 (-cap)) := by
  rw [List.chain'_cons']
  refine ⟨?_, ledgerGo_chain jsSin jsPI p vida 1 (-cap)⟩
  intro b hb
  cases vida with
  | zero => simp [ledgerGo_zero_eq] at hb
  | succ v =>
    rw [ledgerGo_head? jsSin jsPI p (v + 1) 1 _ (Nat.succ_pos v)] at hb
    have hb2 : rowFor jsSin jsPI p 1 (-cap + (rowFor jsSin jsPI p 1 0).neto) = b := by
      simpa using hb
    subst hb2
    unfold cumStep
    rw [rowFor_acumulado, h0,
      rowFor_neto_const jsSin jsPI p 1 (-cap + (rowFor jsSin jsPI p 1 0).neto)]

/-- The `rows`, `vida` and `capexNeto` fields of a V1 model fit the
`row0 :: ledgerGo …` shape for some derived parameters. -/
theorem model_rows_spec (jsSin : ℚ → ℚ) (jsPI : ℚ) (s : Scenario) :
    ∃ (p : DerivedParams) (cap : ℚ),
      (computeScenarioModel jsSin jsPI s).capexNeto = cap ∧
      (computeScenarioModel jsSin jsPI s).rows =
        { year := 0
          tarifa := 0
          energia := 0
          ahorro := 0
          om := 0
          incentivoRenta := 0
          neto := -cap
          acumulado := -cap : Row } ::
          ledgerGo jsSin jsPI p ((computeScenarioModel jsSin jsPI s).vida) 1 (-cap) :=
  ⟨_, _, rfl, rfl⟩

/-- The V1 ledger always has `vida + 1` rows. -/
theorem model_rows_length (jsSin : ℚ → ℚ) (jsPI : ℚ) (s : Scenario) :
    (computeScenarioModel jsSin jsPI s).rows.length =
      (computeScenarioModel jsSin jsPI s).vida + 1 := by
  obtain ⟨p, cap, _, hrows⟩ := model_rows_spec jsSin jsPI s
  rw [hrows]
  simp [ledgerGo_length]

/-- C1: for every scenario record, the V1 computation produces a ledger of
exactly `lifetime + 1` rows (the clamped `vida` plus the year-0 row); row 0
has net cash flow `-capexNeto` and cumulative `-capexNeto`; and every
later row's cumulative is the previous row's cumulative plus that row's
net cash flow. -/
theorem ledger_shape_and_cumulative (jsSin : ℚ → ℚ) (jsPI : ℚ) (s : Scenario) :
    (computeScenarioModel jsSin jsPI s).rows.length =
        (computeScenarioModel jsSin jsPI s).vida + 1 ∧
    ((computeScenarioModel jsSin jsPI s).rows.getD 0 dRow).neto =
        -(computeScenarioModel jsSin jsPI s).capexNeto ∧
    ((computeScenarioModel jsSin jsPI s).rows.getD 0 dRow).acumulado =
        -(computeScenarioModel jsSin jsPI s).capexNeto ∧
    ∀ i, i + 1 < (computeScenarioModel jsSin jsPI s).rows.length →
      ((computeScenarioModel jsSin jsPI s).rows.getD (i + 1) dRow).acumulado =
        ((computeScenarioModel jsSin jsPI s).rows.getD i dRow).acumulado +
        ((computeScenarioModel jsSin jsPI s).rows.getD (i + 1) dRow).neto := by
  obtain ⟨p, cap, hcap, hrows⟩ := model_rows_spec jsSin jsPI s
  refine ⟨model_rows_length jsSin jsPI s, ?_, ?_, ?_⟩
  · rw [hrows, hcap]
    rfl
  · rw [hrows, hcap]
    rfl
  · intro i hi
    have hch : List.Chain' cumStep ((computeScenarioModel jsSin jsPI s).rows) := by
      rw [hrows]
      exact rows_chain jsSin jsPI p _ cap _ rfl
    rw [List.chain'_iff_get] at hch
    have h1 : i < (computeScenarioModel jsSin jsPI s).rows.length := by omega
    have hstep := hch i (by omega)
    unfold cumStep at hstep
    simp only [List.getD_eq_getElem?_getD, List.getElem?_eq_getElem h1,
      List.getElem?_eq_getElem hi, Option.getD_some]
    simpa [List.get_eq_getElem] using hstep

/-- C1 (witness): the cumulative recurrence at year 1 of the concrete
scenario `sV1a`. -/
theorem ledger_shape_and_cumulative_witness :
    ((computeScenarioModel jsSin0 jsPI0 sV1a).rows.getD 1 dRow).acumulado =
      ((computeScenarioModel jsSin0 jsPI0 sV1a).rows.getD 0 dRow).acumulado +
      ((computeScenarioModel jsSin0 jsPI0 sV1a).rows.getD 1 dRow).neto :=
  (ledger_shape_and_cumulative jsSin0 jsPI0 sV1a).2.2.2 0 (by decide)

/-- The V1 net-capex resolver never returns a negative value: it starts
from `max(0, capex)` and only divides by factors `1 + clamp(rate, 0, 1) ≥ 1`. -/
theorem calcularCapexNeto_nonneg (a b c : Option ℚ) (f1 f2 : Bool) :
    0 ≤ calcularCapexNeto a b c f1 f2 := by
  have h0 : (0:ℚ) ≤ max 0 (n a 0) := le_max_left 0 _
  have hb : (0:ℚ) < 1 + clamp (n b 0.19) 0 1 := by
    have : (0:ℚ) ≤ clamp (n b 0.19) 0 1 := by
      unfold clamp
      exact le_min (by norm_num) (le_max_left 0 _)
    linarith
  have hc : (0:ℚ) < 1 + clamp (n c 0.05) 0 1 := by
    have : (0:ℚ) ≤ clamp (n c 0.05) 0 1 := by
      unfold clamp
      exact le_min (by norm_num) (le_max_left 0 _)
    linarith
  simp only [calcularCapexNeto]
  split_ifs
  · exact div_nonneg (div_nonneg h0 hb.le) hc.le
  · exact div_nonneg h0 hc.le
  · exact div_nonneg h0 hb.le
  · exact h0

/-- The `capexNeto` field of a V1 model is a `calcularCapexNeto` value. -/
theorem model_capexNeto_spec (jsSin : ℚ → ℚ) (jsPI : ℚ) (s : Scenario) :
    ∃ a b c f1 f2, (computeScenarioModel jsSin jsPI s).capexNeto =
      calcularCapexNeto a b c f1 f2 :=
  ⟨_, _, _, _, _, rfl⟩

/-- The V1 core is total on every shaped input (any mix of finite
numbers and non-finite/unparseable field values): it always returns a
model whose clamped lifetime lies in `[1, 30]`, whose ledger has
`vida + 1` rows, and whose net capex is non-negative — out-of-range
inputs are clamped or replaced by fallbacks, never rejected.  (The
part_001 cores do *not* share this property; see `proYears_range_error`.) -/
theorem computeScenarioModel_total_and_clamped (jsSin : ℚ → ℚ) (jsPI : ℚ) (s : Scenario) :
    1 ≤ (computeScenarioModel jsSin jsPI s).vida ∧
    (computeScenarioModel jsSin jsPI s).vida ≤ 30 ∧
    (computeScenarioModel jsSin jsPI s).rows.length =
      (computeScenarioModel jsSin jsPI s).vida + 1 ∧
    0 ≤ (computeScenarioModel jsSin jsPI s).capexNeto := by
  have hvida : (computeScenarioModel jsSin jsPI s).vida =
      (min 30 (max 1 (int s.vida 25))).toNat := rfl
  have h1 : (1:ℤ) ≤ min 30 (max 1 (int s.vida 25)) :=
    le_min (by norm_num) (le_max_left 1 _)
  have h2 : min 30 (max 1 (int s.vida 25)) ≤ 30 := min_le_left _ _
  refine ⟨?_, ?_, model_rows_length jsSin jsPI s, ?_⟩
  · rw [hvida]; omega
  · rw [hvida]; omega
  · obtain ⟨a, b, c, f1, f2, hcap⟩ := model_capexNeto_spec jsSin jsPI s
    rw [hcap]
    exact calcularCapexNeto_nonneg a b c f1 f2

/-- C5 (code-bug evaluation): the part_001 cores are *not* total on
valid-shaped inputs.  Their `years = Math.max(5, Math.round(s.lifeYears))`
feeds `new Array(years + 1)`, so a non-finite `lifeYears` (NaN is
explicitly in the claim's input domain) or one rounding to `2^32` or more
makes the allocation throw a `RangeError` — `proYears` returns `none` on
exactly those inputs — while in-range lifetimes follow the normal path
(including the silent floor at 5).  The V1 core, by contrast, is total:
see `computeScenarioModel_total_and_clamped`. -/
theorem proYears_range_error :
    proYears none = none ∧ proYears (some (2 ^ 40)) = none ∧
    proYears (some 25) = some 25 ∧ proYears (some 0) = some 5 := by
  refine ⟨rfl, by decide, by decide, by decide⟩

/-! ## C9: tariff projector -/

/-- C9: for every parameter set (and every value of the abstract `Math.sin`
and `Math.PI`), cyclical mode with volatility `0` returns exactly the
escalated-mode price at every year; and in every mode a non-positive year
returns the base tariff unmodified. -/
theorem tariff_cyclical_vol0_and_year0 (jsSin : ℚ → ℚ) (jsPI base esc vol cyc : ℚ)
    (list : List ℚ) (mode : String) (y : ℤ) :
    (tariffForYear jsSin jsPI "ciclico" base esc list 0 cyc y =
      tariffForYear jsSin jsPI "escalado" base esc list 0 cyc y) ∧
    (y ≤ 0 → tariffForYear jsSin jsPI mode base esc list vol cyc y = base) := by
  constructor
  · by_cases hy : y ≤ 0
    · simp only [tariffForYear, if_pos hy]
    · have h1 : ¬("ciclico" = "manual") := by decide
      have h2 : ("ciclico" = "ciclico") := rfl
      have h3 : ¬("escalado" = "manual") := by decide
      have h4 : ¬("escalado" = "ciclico") := by decide
      simp only [tariffForYear, if_neg hy, if_neg h1, if_pos h2, if_neg h3, if_neg h4]
      have hclamp : clamp 0 0 0.5 = 0 := by unfold clamp; norm_num
      rw [hclamp]
      simp
  · intro hy
    simp only [tariffForYear, if_pos hy]

/-- C9 (witness): year 0 in escalated mode returns the base tariff `850`. -/
theorem tariff_cyclical_vol0_and_year0_witness :
    tariffForYear jsSin0 jsPI0 "escalado" 850 (3/100) [] (1/10) 4 0 = 850 :=
  (tariff_cyclical_vol0_and_year0 jsSin0 jsPI0 850 (3/100) (1/10) 4 [] "escalado" 0).2
    (by decide)

/-! ## C8: deduction-benefit stream -/

theorem benefGo_zero_eq (cuota tope tasa : ℚ) (anos : ℕ) (restante : ℚ) (y : ℕ) :
    benefGo cuota tope tasa anos restante y 0 = [] := rfl

theorem benefGo_succ_eq (cuota tope tasa : ℚ) (anos : ℕ) (restante : ℚ) (y fuel : ℕ) :
    benefGo cuota tope tasa anos restante y (fuel + 1) =
      if anos < y ∨ restante ≤ 0 then List.replicate (fuel + 1) 0
      else min cuota (min restante tope) * tasa ::
        benefGo cuota tope tasa anos (restante - min cuota (min restante tope)) (y + 1) fuel :=
  rfl

theorem claimRem_succ_eq (cuota tope : ℚ) (anos : ℕ) (base : ℚ) (y : ℕ) :
    claimRem cuota tope anos base (y + 1) =
      if y + 1 ≤ anos ∧ 0 < claimRem cuota tope anos base y then
        claimRem cuota tope anos base y -
          min cuota (min (claimRem cuota tope anos base y) tope)
      else claimRem cuota tope anos base y := rfl

/-- Once the remaining base is non-positive it never changes again. -/
theorem claimRem_stuck (cuota tope : ℚ) (anos : ℕ) (base : ℚ) :
    ∀ (k z : ℕ), claimRem cuota tope anos base z ≤ 0 →
      claimRem cuota tope anos base (z + k) = claimRem cuota tope anos base z := by
  intro k
  induction k with
  | zero => intro z _; rfl
  | succ j ih =>
    intro z h
    have heq : z + (j + 1) = (z + j) + 1 := by omega
    rw [heq, claimRem_succ_eq, ih z h, if_neg]
    rintro ⟨_, hpos⟩
    linarith

/-- The V1 fill loop, started at year `y` with the claim-side remaining
base, produces exactly the claim-side deduction stream. -/
theorem benefGo_matches_claim (cuota tope tasa : ℚ) (anos : ℕ) (base : ℚ) :
    ∀ (fuel y : ℕ), 1 ≤ y → ∀ i, i < fuel →
      (benefGo cuota tope tasa anos (claimRem cuota tope anos base (y - 1)) y fuel).get? i =
        some (claimDed cuota tope anos base (y + i) * tasa) := by
  intro fuel
  induction fuel with
  | zero => intro y hy i hi; omega
  | succ f ih =>
    intro y hy i hi
    rw [benefGo_succ_eq]
    by_cases hcond : anos < y ∨ claimRem cuota tope anos base (y - 1) ≤ 0
    · rw [if_pos hcond]
      have hz : claimDed cuota tope anos base (y + i) = 0 := by
        unfold claimDed
        rcases hcond with hlt | hle
        · rw [if_neg]
          rintro ⟨_, h2, _⟩
          omega
        · have hstuck : claimRem cuota tope anos base (y + i - 1) ≤ 0 := by
            have heq : y + i - 1 = (y - 1) + i := by omega
            rw [heq, claimRem_stuck cuota tope anos base i (y - 1) hle]
            exact hle
          rw [if_neg]
          rintro ⟨_, _, h3⟩
          linarith
      rw [hz, zero_mul]
      rw [List.get?_eq_getElem?]
      simp [List.getElem?_replicate, hi]
    · push_neg at hcond
      obtain ⟨hyanos, hrpos⟩ := hcond
      rw [if_neg (by push_neg; exact ⟨hyanos, hrpos⟩ : ¬(anos < y ∨ claimRem cuota tope anos base (y - 1) ≤ 0))]
      cases i with
      | zero =>
        have hded : claimDed cuota tope anos base (y + 0) =
            min cuota (min (claimRem cuota tope anos base (y - 1)) tope) := by
          unfold claimDed
          simp only [Nat.add_zero]
          rw [if_pos ⟨hy, hyanos, hrpos⟩]
        rw [hded]
        rfl
      | succ j =>
        have hrem : claimRem cuota tope anos base ((y + 1) - 1) =
            claimRem cuota tope anos base (y - 1) -
              min cuota (min (claimRem cuota tope anos base (y - 1)) tope) := by
          obtain ⟨z, rfl⟩ : ∃ z, y = z + 1 := ⟨y - 1, by omega⟩
          simp only [Nat.add_sub_cancel]
          rw [claimRem_succ_eq, if_pos]
          constructor
          · omega
          · simpa using hrpos
        have hih := ih (y + 1) (by omega) j (by omega)
        rw [hrem] at hih
        have hidx : (y + 1) + j = y + (j + 1) := by omega
        rw [hidx] at hih
        exact hih

/-- C8 (amended): in the *main variant*, with the income-tax-deduction
capability enabled, entry `i` of the V1 benefit stream (year `i + 1`)
equals the claim's formula: the minimum of the evenly-spread share of the
50%-of-net-capex base, the remaining undeducted base carried forward year
to year, and 50% of the annual taxable-income ceiling — multiplied by the
clamped income-tax rate — and zero after the deduction window closes or
the base is exhausted (both encoded in `claimDed` / `claimRem`).  The
part_001 variants instead pay a flat, uncapped benefit in every year of
the lifetime: see the counterexample. -/
theorem beneficio_matches_claim (capexNeto vida anosAp ingreso tasaR : Option ℚ) :
    ∀ i, i < (min 30 (max 1 (int vida 25))).toNat →
      (beneficioDeduccionRentaPorAno capexNeto vida true anosAp ingreso tasaR).get? i =
        some (claimDed
            (0.5 * max 0 (n capexNeto 0) / (((min 15 (max 1 (int anosAp 5))).toNat : ℕ) : ℚ))
            (0.5 * max 0 (n ingreso 0))
            ((min 15 (max 1 (int anosAp 5))).toNat)
            (0.5 * max 0 (n capexNeto 0))
            (i + 1) * clamp (n tasaR 0.35) 0 1) := by
  intro i hi
  have h := benefGo_matches_claim
    (0.5 * max 0 (n capexNeto 0) / (((min 15 (max 1 (int anosAp 5))).toNat : ℕ) : ℚ))
    (0.5 * max 0 (n ingreso 0))
    (clamp (n tasaR 0.35) 0 1)
    ((min 15 (max 1 (int anosAp 5))).toNat)
    (0.5 * max 0 (n capexNeto 0))
    ((min 30 (max 1 (int vida 25))).toNat) 1 (le_refl 1) i hi
  have hidx : 1 + i = i + 1 := by omega
  rw [hidx] at h
  exact h

/-- C8 (witness): the year-1 entry at concrete inputs — capex base 100
over 3 years with a high income ceiling gives `min(50/3, 50, 500) × 0.35`. -/
theorem beneficio_matches_claim_witness :
    (beneficioDeduccionRentaPorAno (some 100) (some 10) true (some 3) (some 1000)
        (some 0.35)).get? 0 =
      some (claimDed (0.5 * max 0 (n (some 100) 0) / (((min 15 (max 1 (int (some 3) 5))).toNat : ℕ) : ℚ))
        (0.5 * max 0 (n (some 1000) 0))
        ((min 15 (max 1 (int (some 3) 5))).toNat)
        (0.5 * max 0 (n (some 100) 0))
        1 * clamp (n (some 0.35) 0.35) 0 1) :=
  beneficio_matches_claim (some 100) (some 10) (some 3) (some 1000) (some 0.35) 0 (by decide)

/-- C8 (counterexample): in the part_001 variants the `co_full` benefit is
the flat amount `(0.5 · netCapex / deductionYears) · taxRate`, paid in
*every* year of the lifetime with no income ceiling and no remaining-base
carry-forward: with a 2-year deduction window and a 5-year lifetime, year
3 still receives the same positive benefit as year 1 — whereas the
claimed formula (`claimDed`, whatever the ceiling) gives zero for every
year after the window closes. -/
theorem pro_taxBenefit_after_window_counterexample :
    ((computeScenarioPro sProFull { includeTaxBenefit := true, useVolatility := false, includeExports := false } noise0).annuals.getD 2 dAnnualPro).year = 3 ∧
    0 < ((computeScenarioPro sProFull { includeTaxBenefit := true, useVolatility := false, includeExports := false } noise0).annuals.getD 2 dAnnualPro).taxBenefit ∧
    ((computeScenarioPro sProFull { includeTaxBenefit := true, useVolatility := false, includeExports := false } noise0).annuals.getD 2 dAnnualPro).taxBenefit =
      ((computeScenarioPro sProFull { includeTaxBenefit := true, useVolatility := false, includeExports := false } noise0).annuals.getD 0 dAnnualPro).taxBenefit ∧
    claimDed (0.5 * (computeScenarioPro sProFull { includeTaxBenefit := true, useVolatility := false, includeExports := false } noise0).capexNeto / 2)
      (10 ^ 9) 2
      (0.5 * (computeScenarioPro sProFull { includeTaxBenefit := true, useVolatility := false, includeExports := false } noise0).capexNeto) 3 = 0 := by
  refine ⟨by decide, by decide, by decide, by decide⟩

/-! ## C6: comparison series; C7/C4: part_001 evaluations -/

/-- Entry `y` of the V1 chart, for `y` inside the series. -/
theorem chart_getD_of_lt (mA mB mC : Model) (y : ℕ)
    (hy : y < max (max mA.vida mB.vida) mC.vida + 1) :
    (chart mA mB mC).getD y dPt =
      { year := y
        A := jsRound ((mA.rows.getD y (mA.rows.getD (mA.rows.length - 1) dRow)).acumulado)
        B := jsRound ((mB.rows.getD y (mB.rows.getD (mB.rows.length - 1) dRow)).acumulado)
        C := jsRound ((mC.rows.getD y (mC.rows.getD (mC.rows.length - 1) dRow)).acumulado) } := by
  unfold chart
  rw [List.getD_eq_getElem?_getD, List.getElem?_map, List.getElem?_range hy]
  rfl

/-- C6 (amended): the V1 chart does have `max(vida_A, vida_B, vida_C) + 1`
entries, and a scenario whose (clamped) lifetime is below a year index
contributes its final rounded cumulative at that index; but in the
part_001 variants the series instead has `active scenario's years + 1`
entries (see the counterexample), so the claimed length law holds only for
the main variant. -/
theorem chart_v1_length_and_holds_final (jsSin : ℚ → ℚ) (jsPI : ℚ) (sA sB sC : Scenario) :
    (chart (computeScenarioModel jsSin jsPI sA) (computeScenarioModel jsSin jsPI sB)
        (computeScenarioModel jsSin jsPI sC)).length =
      max (max (computeScenarioModel jsSin jsPI sA).vida
        (computeScenarioModel jsSin jsPI sB).vida)
        (computeScenarioModel jsSin jsPI sC).vida + 1 ∧
    (∀ y, y < max (max (computeScenarioModel jsSin jsPI sA).vida
        (computeScenarioModel jsSin jsPI sB).vida)
        (computeScenarioModel jsSin jsPI sC).vida + 1 →
      (computeScenarioModel jsSin jsPI sA).vida < y →
      ((chart (computeScenarioModel jsSin jsPI sA) (computeScenarioModel jsSin jsPI sB)
          (computeScenarioModel jsSin jsPI sC)).getD y dPt).A =
        jsRound (((computeScenarioModel jsSin jsPI sA).rows.getD
          ((computeScenarioModel jsSin jsPI sA).rows.length - 1) dRow).acumulado)) ∧
    (∀ y, y < max (max (computeScenarioModel jsSin jsPI sA).vida
        (computeScenarioModel jsSin jsPI sB).vida)
        (computeScenarioModel jsSin jsPI sC).vida + 1 →
      (computeScenarioModel jsSin jsPI sB).vida < y →
      ((chart (computeScenarioModel jsSin jsPI sA) (computeScenarioModel jsSin jsPI sB)
          (computeScenarioModel jsSin jsPI sC)).getD y dPt).B =
        jsRound (((computeScenarioModel jsSin jsPI sB).rows.getD
          ((computeScenarioModel jsSin jsPI sB).rows.length - 1) dRow).acumulado)) ∧
    (∀ y, y < max (max (computeScenarioModel jsSin jsPI sA).vida
        (computeScenarioModel jsSin jsPI sB).vida)
        (computeScenarioModel jsSin jsPI sC).vida + 1 →
      (computeScenarioModel jsSin jsPI sC).vida < y →
      ((chart (computeScenarioModel jsSin jsPI sA) (computeScenarioModel jsSin jsPI sB)
          (computeScenarioModel jsSin jsPI sC)).getD y dPt).C =
        jsRound (((computeScenarioModel jsSin jsPI sC).rows.getD
          ((computeScenarioModel jsSin jsPI sC).rows.length - 1) dRow).acumulado)) := by
  refine ⟨?_, ?_, ?_, ?_⟩
  · unfold chart
    simp
  · intro y h1 h2
    rw [chart_getD_of_lt _ _ _ y h1]
    have hlen : (computeScenarioModel jsSin jsPI sA).rows.length ≤ y := by
      rw [model_rows_length jsSin jsPI sA]; omega
    show jsRound (((computeScenarioModel jsSin jsPI sA).rows.getD y _).acumulado) = _
    rw [List.getD_eq_getElem?_getD, List.getElem?_eq_none hlen, Option.getD_none]
  · intro y h1 h2
    rw [chart_getD_of_lt _ _ _ y h1]
    have hlen : (computeScenarioModel jsSin jsPI sB).rows.length ≤ y := by
      rw [model_rows_length jsSin jsPI sB]; omega
    show jsRound (((computeScenarioModel jsSin jsPI sB).rows.getD y _).acumulado) = _
    rw [List.getD_eq_getElem?_getD, List.getElem?_eq_none hlen, Option.getD_none]
  · intro y h1 h2
    rw [chart_getD_of_lt _ _ _ y h1]
    have hlen : (computeScenarioModel jsSin jsPI sC).rows.length ≤ y := by
      rw [model_rows_length jsSin jsPI sC]; omega
    show jsRound (((computeScenarioModel jsSin jsPI sC).rows.getD y _).acumulado) = _
    rw [List.getD_eq_getElem?_getD, List.getElem?_eq_none hlen, Option.getD_none]

/-- C6 (witness): scenario A has clamped lifetime 2 and holds its final
rounded cumulative at year 3 of a series of length `max(2,4,3) + 1 = 5`. -/
theorem chart_v1_holds_final_witness :
    ((chart (computeScenarioModel jsSin0 jsPI0 sV1a) (computeScenarioModel jsSin0 jsPI0 sV1b)
        (computeScenarioModel jsSin0 jsPI0 sV1c)).getD 3 dPt).A =
      jsRound (((computeScenarioModel jsSin0 jsPI0 sV1a).rows.getD
        ((computeScenarioModel jsSin0 jsPI0 sV1a).rows.length - 1) dRow).acumulado) :=
  (chart_v1_length_and_holds_final jsSin0 jsPI0 sV1a sV1b sV1c).2.1 3 (by decide) (by decide)

/-- C6 (counterexample): in the part_001 variants the series length is the
*active* scenario's years plus one.  With active scenario B of 5 years and
scenario A of 10 years, the series has 6 entries, not `max + 1 = 11`. -/
theorem chartData_pro_length_counterexample :
    (chartDataPro (computeScenarioPro sProLong ⟨true, false, false⟩ noise0)
        (computeScenarioPro sProBase ⟨true, false, false⟩ noise0)
        (computeScenarioPro sProBase ⟨true, false, false⟩ noise0)
        (computeScenarioPro sProBase ⟨true, false, false⟩ noise0).years).length ≠
      max (max (computeScenarioPro sProLong ⟨true, false, false⟩ noise0).years
          (computeScenarioPro sProBase ⟨true, false, false⟩ noise0).years)
        (computeScenarioPro sProBase ⟨true, false, false⟩ noise0).years + 1 := by
  decide

/-- C7 (code-bug evaluation): at the zero-capex input the V2 computation
resolves net capex to `0` while the year-1 cash flow is positive, so its
unguarded `roi1 = cashflows[1] / capexNeto` divides a positive number by
zero — JavaScript yields `Infinity`, not the `null` the claim (and V1's
guarded `roi1`) requires. -/
theorem roi1_pro_divides_positive_by_zero :
    (computeScenarioPro sProZero { includeTaxBenefit := true, useVolatility := false, includeExports := true } noise0).capexNeto = 0 ∧
    0 < (computeScenarioPro sProZero { includeTaxBenefit := true, useVolatility := false, includeExports := true } noise0).cashflows.getD 1 0 := by
  refine ⟨by decide, by decide⟩

/-- C4 (code-bug evaluation): with the volatility toggle on, the V3
computation's output depends on the `Math.random()` draws — two runs on
identical scenario and toggles but different draw streams produce
different cash-flow vectors, so rerunning is not bit-identical.  (V1 and
V2 contain no randomness: they are Lean functions of their inputs alone.) -/
theorem v3_output_depends_on_random_stream :
    (computeScenarioV3 sProBase { includeTaxBenefit := false, useVolatility := true } rand0).cashflows ≠
    (computeScenarioV3 sProBase { includeTaxBenefit := false, useVolatility := true } randHalf).cashflows := by
  decide
